import Mathlib

/-!
Verification of the ImageMagick WebUI backend core: the operation catalog and
command compiler (`app/services/imagemagick.py`), the raw-command validator,
the execution-sandbox invocation shape, the job-state reconciler
(`app/api/queue.py`), the raw-command submission path
(`app/api/operations.py`) and the batch worker (`app/workers/tasks.py`).

The Python sources are embedded shallowly: parameter dictionaries become
structures of optional typed fields (`params.get k d` becomes `field.getD d`),
Python floats become rationals, Python strings become `String`, timestamps
become integers counted in seconds, and each regular expression of the fixed
blocklist (a character class or a literal, matched case-insensitively) is
evaluated directly.
-/

namespace ImageMagickWebUI

/-- Prefix test on character lists (all string manipulation below is done on
character lists by structural recursion, so that every definition evaluates
inside the kernel). -/
def listIsPre : List Char → List Char → Bool
  | [], _ => true
  | _ :: _, [] => false
  | p :: ps, c :: cs => p = c && listIsPre ps cs

/-- Occurrence test for `pat` somewhere in `s` (character lists). -/
def hasSubList (s pat : List Char) : Bool :=
  match s with
  | [] => pat.isEmpty
  | _ :: rest => listIsPre pat s || hasSubList rest pat

/-- Substring occurrence test (Python `pat in s`). -/
def hasSubstr (s pat : String) : Bool :=
  hasSubList s.data pat.data

/-- Replacement of every occurrence of nonempty `pat`, left to right and
non-overlapping (the semantics of Python `s.replace(pat, rep)`); `fuel`
bounds the recursion and is initialized to the length of `s`, which always
suffices because every step consumes at least one character. -/
def replaceAllL (fuel : Nat) (s pat rep : List Char) : List Char :=
  match fuel, s with
  | 0, s => s
  | _ + 1, [] => []
  | f + 1, c :: rest =>
      if listIsPre pat (c :: rest) && !pat.isEmpty then
        rep ++ replaceAllL f ((c :: rest).drop pat.length) pat rep
      else
        c :: replaceAllL f rest pat rep

/-- Python `s.replace(pat, rep)` for nonempty `pat`. -/
def strReplace (s pat rep : String) : String :=
  String.mk (replaceAllL s.data.length s.data pat.data rep.data)

/-- Replacement of only the first occurrence of `pat`
(Python `s.replace(pat, rep, 1)`), on character lists. -/
def replaceFirstL (s pat rep : List Char) : List Char :=
  match s with
  | [] => []
  | c :: rest =>
      if listIsPre pat (c :: rest) then rep ++ (c :: rest).drop pat.length
      else c :: replaceFirstL rest pat rep

/-- Python `s.replace(pat, rep, 1)`. -/
def replaceFirst (s pat rep : String) : String :=
  String.mk (replaceFirstL s.data pat.data rep.data)

/-- Python `s.lower()` (ASCII case folding, which is all the sources use). -/
def strToLower (s : String) : String :=
  String.mk (s.data.map Char.toLower)

/-- Python `s.startswith(pre)`. -/
def strStartsWith (s pre : String) : Bool :=
  listIsPre pre.data s.data

/-- Python `s.endswith(suf)`. -/
def strEndsWith (s suf : String) : Bool :=
  listIsPre suf.data.reverse s.data.reverse

/-- Python `s.strip()`: whitespace removed from both ends. -/
def strTrim (s : String) : String :=
  String.mk
    (((s.data.dropWhile Char.isWhitespace).reverse.dropWhile
      Char.isWhitespace).reverse)

/-- Python slicing `s[:n]` (by code points). -/
def strTake (s : String) (n : Nat) : String :=
  String.mk (s.data.take n)

/-- The characters CPython's `shlex.quote` leaves unquoted
(ASCII word characters plus at-sign, percent, plus, equals, colon, comma,
dot, slash and hyphen). -/
def shlexSafeChar (c : Char) : Bool :=
  c.isAlpha || c.isDigit || c = '_' || c = '@' || c = '%' || c = '+' ||
  c = '=' || c = ':' || c = ',' || c = '.' || c = '/' || c = '-'

/-- Embedding of `shlex.quote`: the empty string becomes a pair of single
quotes; a string made only of safe characters is returned unchanged; anything
else is wrapped in single quotes with every embedded single quote rewritten
to the quote-escape-quote sequence. -/
def shlexQuote (s : String) : String :=
  if s = "" then "\x27\x27"
  else if s.data.all shlexSafeChar then s
  else "\x27" ++ strReplace s "\x27" "\x27\"\x27\"\x27" ++ "\x27"

/-- The fixed blocklist of dangerous raw-command patterns
(`ImageMagickService.BLOCKED_PATTERNS`), kept as the regex source text of
the Python class attribute. -/
def BLOCKED_PATTERNS : List String :=
  ["[;&|`$]", "\\.\\./", "ephemeral:", "msl:", "mvg:", "url:", "https?:",
   "ftp:", "label:", "caption:", "pango:", "/dev/", "/proc/", "/etc/",
   "\\\\x"]

/-- Evaluation of `re.search(pattern, s, re.IGNORECASE)` for the patterns of
the blocklist: the character class matches when any of its five characters
occurs in `s`; the escaped patterns match their unescaped literal text
(`../`, and backslash-x case-insensitively); `https?:` matches either
protocol prefix case-insensitively; every other entry is a case-insensitive
literal substring match. -/
def reSearchCI (pattern s : String) : Bool :=
  if pattern = "[;&|`$]" then
    s.data.any fun c => c = ';' || c = '&' || c = '|' || c.toNat = 96 || c = '$'
  else if pattern = "\\.\\./" then hasSubstr s "../"
  else if pattern = "https?:" then
    hasSubstr (strToLower s) "http:" || hasSubstr (strToLower s) "https:"
  else if pattern = "\\\\x" then hasSubstr (strToLower s) "\\x"
  else hasSubstr (strToLower s) pattern

/-- Embedding of `ImageMagickService.validate_command`: scan the blocklist in
order and reject on the first matching pattern, naming that pattern in the
reason; accept with an empty reason when nothing matches. -/
def validate_command (command : String) : Bool × String :=
  match BLOCKED_PATTERNS.find? (fun p => reSearchCI p command) with
  | some p => (false, "Blocked pattern detected: " ++ p)
  | none => (true, "")

theorem validate_command_of_match {s : String}
    (h : ∃ p ∈ BLOCKED_PATTERNS, reSearchCI p s = true) :
    (validate_command s).1 = false ∧
      ∃ p ∈ BLOCKED_PATTERNS, reSearchCI p s = true ∧
        (validate_command s).2 = "Blocked pattern detected: " ++ p := by
  unfold validate_command
  rcases hf : BLOCKED_PATTERNS.find? (fun p => reSearchCI p s) with _ | q
  · rcases h with ⟨p, hp, hm⟩
    have := List.find?_eq_none.mp hf p hp
    simp [hm] at this
  · refine ⟨rfl, q, List.mem_of_find?_eq_some hf, ?_, rfl⟩
    simpa using List.find?_some hf

theorem validate_command_of_no_match {s : String}
    (h : ∀ p ∈ BLOCKED_PATTERNS, reSearchCI p s = false) :
    validate_command s = (true, "") := by
  unfold validate_command
  rcases hf : BLOCKED_PATTERNS.find? (fun p => reSearchCI p s) with _ | q
  · rfl
  · have h1 := List.find?_some hf
    have h2 := h q (List.mem_of_find?_eq_some hf)
    simp [h2] at h1

/-- Truncation of a rational toward zero, the behaviour of Python's
`int(float)` coercion (integer-only computation on the reduced fraction). -/
def pyTrunc (q : ℚ) : ℤ :=
  q.num.tdiv q.den

/-- Round `q * k` to the nearest integer with ties to even — the rounding
CPython's fixed-point float formatting performs on exactly representable
values. Computed on the reduced fraction: `f` is the floor of `q * k` and
`r2` is twice the remainder's numerator, so comparing `r2` with the
denominator compares the fractional part with one half. -/
def roundTiesEvenScaled (q : ℚ) (k : ℤ) : ℤ :=
  let num := q.num * k
  let den := (q.den : ℤ)
  let f := num.fdiv den
  let r2 := 2 * (num - f * den)
  if r2 < den then f
  else if den < r2 then f + 1
  else if f % 2 = 0 then f else f + 1

/-- Python's one-decimal fixed-point rendering (the `.1f` format spec),
modelled over rationals. -/
def fmt1 (q : ℚ) : String :=
  let n := roundTiesEvenScaled q 10
  let sign := if n < 0 then "-" else ""
  sign ++ toString (n.natAbs / 10) ++ "." ++ toString (n.natAbs % 10)

/-- Modelled rendering of a Python float interpolated into an f-string
(`str(float)`): integral values print with a trailing `.0`, values with a
terminating decimal expansion print that expansion, anything else falls back
to a fraction. No claim inspects a token produced with a non-terminating
value. -/
def fmtFloat (q : ℚ) : String :=
  if q.den = 1 then toString q.num ++ ".0"
  else
    match (List.range 20).find? (fun k => (10 : ℕ) ^ (k + 1) % q.den = 0) with
    | some k =>
        let n := (q.num * (10 : ℤ) ^ (k + 1)).tdiv (q.den : ℤ)
        let sign := if n < 0 then "-" else ""
        let d : ℕ := 10 ^ (k + 1)
        let frac := toString (n.natAbs % d)
        let pad := String.mk (List.replicate (k + 1 - frac.length) '0')
        sign ++ toString (n.natAbs / d) ++ "." ++ pad ++ frac
    | none => toString q.num ++ "/" ++ toString q.den

/-- The whitelist of pipeline operation names
(`ImageMagickService.ALLOWED_OPERATIONS`, a Python set embedded as a list;
only membership is ever used). -/
def ALLOWED_OPERATIONS : List String :=
  ["resize", "crop", "rotate", "flip", "flop", "transpose", "transverse",
   "quality", "format", "compress", "strip",
   "blur", "sharpen", "unsharp", "emboss", "edge", "charcoal", "sketch",
   "grayscale", "sepia-tone", "negate", "modulate", "brightness-contrast",
   "colorize", "tint", "gamma", "level", "auto-level", "normalize",
   "enhance", "auto-orient", "auto-gamma",
   "composite", "annotate", "watermark", "draw", "font", "pointsize",
   "fill", "gravity",
   "extent", "trim", "shave", "border", "frame",
   "colorspace", "depth", "alpha", "transparent",
   "identify", "verbose",
   "thumbnail", "sample", "scale", "adaptive-resize",
   "deskew", "despeckle", "noise", "median"]

/-- Operation-name normalization performed before the catalog lookup:
`op.get("operation", "").lower().replace("_", "-")`. -/
def normalizeOpName (s : String) : String :=
  strReplace (strToLower s) "_" "-"

/-- The parameter mapping of one pipeline operation, embedded as a structure
of optional typed fields: `params.get(k, d)` becomes `field.getD d`, integer
parameters (which the source coerces with `int(...)`) are `Int`, and
floating-point parameters are rationals. -/
structure OpParams where
  width : Option Int := none
  height : Option Int := none
  mode : Option String := none
  percent : Option Int := none
  x : Option Int := none
  y : Option Int := none
  aspect_w : Option Int := none
  aspect_h : Option Int := none
  angle : Option ℚ := none
  value : Option Int := none
  sigma : Option ℚ := none
  radius : Option ℚ := none
  threshold : Option ℚ := none
  brightness : Option Int := none
  contrast : Option Int := none
  saturation : Option Int := none
  hue : Option Int := none
  text : Option String := none
  position : Option String := none
  font_size : Option Int := none
  color : Option String := none
  opacity : Option ℚ := none
  fuzz : Option Int := none
  deriving Repr, DecidableEq

/-- One entry of the operation pipeline consumed by the compiler. -/
structure Operation where
  operation : String
  params : OpParams
  deriving Repr, DecidableEq

/-- Python truthiness of an optional integer parameter
(`params.get(k)` used in a boolean context: absent or zero is falsy). -/
def truthyInt : Option Int → Bool
  | some n => n != 0
  | none => false

/-- Free-text sanitization of the annotate/watermark branch:
`re.sub` removing every backtick, dollar sign and backslash. -/
def sanitizeAnnotateText (t : String) : String :=
  String.mk (t.data.filter fun c => !(c.toNat = 96 || c = '$' || c = '\\'))

/-- The position-to-gravity dictionary of the annotate/watermark branch,
looked up with default `SouthEast`. -/
def gravity_map (position : String) : String :=
  if position = "northwest" then "NorthWest"
  else if position = "north" then "North"
  else if position = "northeast" then "NorthEast"
  else if position = "west" then "West"
  else if position = "center" then "Center"
  else if position = "east" then "East"
  else if position = "southwest" then "SouthWest"
  else if position = "south" then "South"
  else if position = "southeast" then "SouthEast"
  else "SouthEast"

/-- Token groups contributed by a single operation entry in
`ImageMagickService.build_command`: the normalized name is looked up in the
catalog (the loop `continue`s on a miss), then the branch matching the name
renders its parts. Each list element is one `cmd_parts.append` of the source;
the branch order and all defaults follow the source. The `crop_aspect` branch
is kept even though name normalization makes it unreachable. -/
def opParts (op : Operation) : List String :=
  let op_name := normalizeOpName op.operation
  let params := op.params
  if op_name ∉ ALLOWED_OPERATIONS then []
  else if op_name = "resize" then
    let width := params.width.getD 0
    let height := params.height.getD 0
    let mode := params.mode.getD ""
    if width > 0 ∧ height > 0 then
      let geometry := toString width ++ "x" ++ toString height
      let geometry :=
        if mode = "force" then geometry ++ "!"
        else if mode = "fill" then geometry ++ "^"
        else geometry
      ["-resize " ++ geometry]
    else if truthyInt params.percent then
      ["-resize " ++ toString (params.percent.getD 0) ++ "%"]
    else []
  else if op_name = "crop" then
    let width := params.width.getD 0
    let height := params.height.getD 0
    let x := params.x.getD 0
    let y := params.y.getD 0
    if width > 0 ∧ height > 0 then
      ["-crop " ++ toString width ++ "x" ++ toString height ++ "+" ++
        toString x ++ "+" ++ toString y ++ " +repage"]
    else []
  else if op_name = "crop_aspect" then
    ["-gravity center",
     "-crop " ++ toString (params.aspect_w.getD 1) ++ ":" ++
       toString (params.aspect_h.getD 1),
     "+repage"]
  else if op_name = "rotate" then
    ["-rotate " ++ fmtFloat (params.angle.getD 0)]
  else if op_name = "flip" then ["-flip"]
  else if op_name = "flop" then ["-flop"]
  else if op_name = "quality" then
    ["-quality " ++ toString (max 1 (min 100 (params.value.getD 85)))]
  else if op_name = "blur" then
    let css_blur := params.sigma.getD (params.radius.getD 0)
    if css_blur > 0 then
      ["-gaussian-blur 0x" ++ fmt1 (css_blur * 3)]
    else []
  else if op_name = "sharpen" then
    ["-sharpen " ++ fmtFloat (params.radius.getD 0) ++ "x" ++
      fmtFloat (params.sigma.getD 1)]
  else if op_name = "grayscale" then ["-colorspace Gray"]
  else if op_name = "sepia-tone" then
    ["-sepia-tone " ++ fmtFloat (params.threshold.getD 80) ++ "%"]
  else if op_name = "brightness-contrast" then
    ["-brightness-contrast " ++ toString (params.brightness.getD 0) ++ "x" ++
      toString (params.contrast.getD 0)]
  else if op_name = "modulate" then
    ["-modulate " ++ toString (params.brightness.getD 100) ++ "," ++
      toString (params.saturation.getD 100) ++ "," ++
      toString (params.hue.getD 100)]
  else if op_name = "auto-orient" then ["-auto-orient"]
  else if op_name = "enhance" then
    ["-normalize", "-modulate 100,110,100", "-unsharp 0x0.5+0.5+0.008"]
  else if op_name = "auto-level" then ["-auto-level"]
  else if op_name = "normalize" then ["-normalize"]
  else if op_name = "strip" then ["-strip"]
  else if op_name = "trim" then ["-trim +repage"]
  else if op_name = "negate" then ["-negate"]
  else if op_name = "annotate" ∨ op_name = "watermark" then
    let text := params.text.getD ""
    if text ≠ "" then
      let text := sanitizeAnnotateText text
      let position := strToLower (params.position.getD "southeast")
      let font_size := params.font_size.getD 24
      let opacity := params.opacity.getD (1 / 2)
      let gravity := gravity_map position
      let shadow_offset := max 2 (pyTrunc ((font_size : ℚ) * (5 / 100)))
      let text_offset := max 10 (pyTrunc ((font_size : ℚ) * (2 / 5)))
      ["-gravity " ++ gravity,
       "-pointsize " ++ toString font_size,
       "-fill \x27rgba(0,0,0," ++ fmtFloat opacity ++ ")\x27",
       "-annotate +" ++ toString (text_offset + shadow_offset) ++ "+" ++
         toString (text_offset + shadow_offset) ++ " " ++ shlexQuote text,
       "-fill \x27rgba(255,255,255," ++ fmtFloat opacity ++ ")\x27",
       "-annotate +" ++ toString text_offset ++ "+" ++
         toString text_offset ++ " " ++ shlexQuote text]
    else []
  else if op_name = "transparent" then
    let color := strToLower (params.color.getD "white")
    let fuzz := max 0 (min 100 (params.fuzz.getD 10))
    if color = "auto" then
      ["-alpha set", "-fuzz " ++ toString fuzz ++ "%",
       "-fill none -draw \x27color 0,0 floodfill\x27"]
    else if color ∈ ["white", "black", "red", "green", "blue", "transparent"]
    then
      ["-alpha set", "-fuzz " ++ toString fuzz ++ "%",
       "-transparent " ++ color]
    else
      ["-alpha set", "-fuzz " ++ toString fuzz ++ "%",
       "-transparent \x27" ++ color ++ "\x27"]
  else []

/-- Token-part list of `ImageMagickService.build_command`: engine name,
resource-limit parts, the (quoted) input part with the PDF density/flatten
wrapping, the unconditional orientation fix, the per-operation groups in
caller order, and the quoted output part last. Each element is one
`cmd_parts` entry of the source; the final command string joins them with
single spaces. -/
def buildCommandParts (magick_cmd memory_limit : String) (timeout : Nat)
    (input_path output_path : String) (operations : List Operation) :
    List String :=
  [magick_cmd,
   "-limit memory " ++ memory_limit,
   "-limit time " ++ toString timeout] ++
  (if strEndsWith (strToLower input_path) ".pdf" then
    ["-density 150", shlexQuote (input_path ++ "[0]"), "-flatten"]
  else
    [shlexQuote input_path]) ++
  ["-auto-orient"] ++
  (operations.map opParts).flatten ++
  [shlexQuote output_path]

/-- Embedding of `ImageMagickService.build_command`: the space-join of the
command parts. -/
def build_command (magick_cmd memory_limit : String) (timeout : Nat)
    (input_path output_path : String) (operations : List Operation) :
    String :=
  String.intercalate " "
    (buildCommandParts magick_cmd memory_limit timeout input_path output_path
      operations)

/-- Embedding of `ImageMagickService.build_raw_command` (terminal mode):
validate the raw text against the blocklist, substitute the input/output
placeholders with individually `shlex.quote`d paths, prefix the engine
entry point when the caller omitted it, and splice the resource-limit
tokens right after the entry point (first occurrence only). -/
def build_raw_command (magick_cmd memory_limit : String) (timeout : Nat)
    (input_path output_path raw_command : String) : String × String :=
  let v := validate_command raw_command
  if v.1 = false then ("", v.2)
  else
    let command :=
      strReplace (strReplace raw_command "{input}" (shlexQuote input_path))
        "{output}" (shlexQuote output_path)
    let command :=
      if strStartsWith (strTrim command) "magick" ∨
          strStartsWith (strTrim command) "convert"
      then command
      else magick_cmd ++ " " ++ command
    let limits :=
      "-limit memory " ++ memory_limit ++ " -limit time " ++ toString timeout
    let command :=
      if strStartsWith (strTrim command) "magick" then
        replaceFirst command "magick " ("magick " ++ limits ++ " ")
      else if strStartsWith (strTrim command) "convert" then
        replaceFirst command "convert " ("convert " ++ limits ++ " ")
      else command
    (command, "")

/-- How a compiled command reaches the operating system: either as a single
string handed to the system shell, or as a pre-tokenized argument vector
executed without any shell. -/
inductive ExecInvocation where
  | shellString (command : String)
  | argVector (argv : List String)
  deriving Repr, DecidableEq

/-- Embedding of the invocation shape of
`ImageMagickService._run_command_sync`: the compiled command string is
passed to `subprocess.run` with `shell=True`, i.e. as a single
shell-interpreted string (the clean environment, scratch working directory,
session isolation and timeout of the source are elided as irrelevant to the
claims about tokenization). -/
def run_command_sync (command : String) : ExecInvocation :=
  ExecInvocation.shellString command

/-- The five durable job states (`JobStatus` string constants of
`app/models/job.py`). -/
inductive JobStatus where
  | pending
  | processing
  | completed
  | failed
  | cancelled
  deriving Repr, DecidableEq

/-- A durable `Job` row, restricted to the fields the reconciliation reads
touch. Timestamps are integers counted in seconds. -/
structure JobRecord where
  status : JobStatus
  progress : Int := 0
  error_message : Option String := none
  output_files : List String := []
  created_at : Option Int := none
  started_at : Option Int := none
  completed_at : Option Int := none
  deriving Repr, DecidableEq

/-- The `meta` mapping of a queue-backend record; `meta.get("progress", 0)`
becomes `progress.getD 0`. An absent or empty (falsy) mapping is `none` at
the `RQStatus` level. -/
structure RQMeta where
  progress : Option Int := none
  deriving Repr, DecidableEq

/-- The `result` payload of a finished backend record
(`result.get("output_files", [])` becomes the field default). A `None`
(falsy) result is `none` at the `RQStatus` level. -/
structure RQResult where
  output_files : List String := []
  deriving Repr, DecidableEq

/-- A queue-backend record as returned by
`QueueService.get_job_status`, restricted to the fields the reconciliation
reads use. `status` is the backend's status string. -/
structure RQStatus where
  status : String
  result : Option RQResult := none
  meta : Option RQMeta := none
  exc_info : Option String := none
  deriving Repr, DecidableEq

/-- The per-job body of the reconciliation loop in `list_jobs`
(`app/api/queue.py`): only `pending`/`processing` jobs are synced; a present
backend record maps `finished`, `failed` and `started` onto the durable
status (copying progress from a truthy `meta` whatever the branch), and an
absent record older than the 300-second grace period is force-failed with
the fixed expiry message. `now` is the `datetime.utcnow()` of the read. -/
def listJobsSyncOne (now : Int) (rq : Option RQStatus) (job : JobRecord) :
    JobRecord :=
  if job.status = JobStatus.pending ∨ job.status = JobStatus.processing then
    match rq with
    | some r =>
        let job1 :=
          if r.status = "finished" then
            { job with
              status := JobStatus.completed
              completed_at := some now
              output_files :=
                match r.result with
                | some res => res.output_files
                | none => job.output_files }
          else if r.status = "failed" then
            { job with
              status := JobStatus.failed
              error_message :=
                some (strTake (r.exc_info.getD "Unknown error") 500)
              completed_at := some now }
          else if r.status = "started" then
            { job with
              status := JobStatus.processing
              started_at := some (job.started_at.getD now) }
          else job
        match r.meta with
        | some m => { job1 with progress := m.progress.getD 0 }
        | none => job1
    | none =>
        match job.created_at with
        | some c =>
            if now - c > 300 then
              { job with
                status := JobStatus.failed
                error_message :=
                  some "Job expired or was lost. Please try again."
                completed_at := some now }
            else job
        | none => job
  else job

/-- The reconciliation step of `get_job` (`app/api/queue.py`), restricted to
the durable `Job` fields (the creation of derived `Image` rows for finished
output paths is an effect on other tables and is elided). Unlike the
job-list sync, this path is not guarded on a non-terminal status, does not
truncate the backend error text, and has no expiry branch: an absent backend
record leaves the job untouched. -/
def getJobSync (now : Int) (rq : Option RQStatus) (job : JobRecord) :
    JobRecord :=
  match rq with
  | none => job
  | some r =>
      let job1 :=
        if r.status = "finished" then
          { job with
            status := JobStatus.completed
            completed_at := some now
            output_files :=
              match r.result with
              | some res => res.output_files
              | none => job.output_files }
        else if r.status = "failed" then
          { job with
            status := JobStatus.failed
            error_message := some (r.exc_info.getD "Unknown error")
            completed_at := some now }
        else if r.status = "started" then
          { job with
            status := JobStatus.processing
            started_at := some (job.started_at.getD now) }
        else job
      match r.meta with
      | some m => { job1 with progress := m.progress.getD 0 }
      | none => job1

/-- Outcome of the `process_raw` submission endpoint
(`app/api/operations.py`), tracked together with its stored-state effects:
whether a durable `Job` row was persisted and whether a queue enqueue
happened. An `HTTPException` is an `Except.error` carrying the detail
string. -/
structure RawSubmission where
  persisted_job : Bool
  enqueued : Bool
  response : Except String String
  deriving Repr

/-- Embedding of the control flow of `process_raw`: validate the raw command
first and reject synchronously (no row, no enqueue); then the image lookup
may 404 (still no row, no enqueue); only then is the `Job` row committed and
the work enqueued. -/
def process_raw (command : String) (images_found : Bool) (job_id : String) :
    RawSubmission :=
  let v := validate_command command
  if v.1 = false then
    { persisted_job := false
      enqueued := false
      response := Except.error ("Invalid command: " ++ v.2) }
  else if images_found = false then
    { persisted_job := false
      enqueued := false
      response := Except.error "No images found" }
  else
    { persisted_job := true
      enqueued := true
      response := Except.ok job_id }

/-- Outcome of one iteration of the batch-worker loop in `process_images`
(`app/workers/tasks.py`) for one input file: the input-file validation
fails; execution succeeds and the output file exists; execution fails (or
the output is missing), with the captured stderr; or the iteration body
raises and the per-item handler catches the exception message. -/
inductive ItemOutcome where
  | invalidFile
  | execOk (output_path : String)
  | execFail (stderr : String)
  | raised (msg : String)
  deriving Repr, DecidableEq

/-- The three accumulator lists of `process_images`. -/
structure BatchResults where
  success : List String := []
  failed : List (String × String) := []
  output_files : List String := []
  deriving Repr, DecidableEq

/-- The error string recorded for a failing item: the fixed message for an
invalid input file, `stderr or "Unknown error"` for an execution failure,
and the exception text for a raised exception. -/
def failMessage : ItemOutcome → String
  | ItemOutcome.invalidFile => "Invalid input file"
  | ItemOutcome.execOk _ => ""
  | ItemOutcome.execFail stderr =>
      if stderr = "" then "Unknown error" else stderr
  | ItemOutcome.raised msg => msg

/-- Whether an item outcome lands in the success lists. -/
def isOkOutcome : ItemOutcome → Bool
  | ItemOutcome.execOk _ => true
  | _ => false

/-- Embedding of the loop of `process_images`: each input is attempted
independently (the whole iteration body sits in a per-item `try`/`except`),
appending the input to `success` plus its output path to `output_files` on
success, and exactly one `(file, error)` entry to `failed` otherwise. The
progress-metadata writes are effects on the backend record and are elided. -/
def process_images : List (String × ItemOutcome) → BatchResults
  | [] => {}
  | (input_path, outcome) :: rest =>
      let r := process_images rest
      match outcome with
      | ItemOutcome.execOk out =>
          { success := input_path :: r.success
            failed := r.failed
            output_files := out :: r.output_files }
      | o =>
          { r with failed := (input_path, failMessage o) :: r.failed }

lemma opParts_nil_of_not_allowed (op : Operation)
    (h : normalizeOpName op.operation ∉ ALLOWED_OPERATIONS) :
    opParts op = [] := by
  have h' : (normalizeOpName op.operation ∉ ALLOWED_OPERATIONS) = True :=
    eq_true h
  simp only [opParts, h', if_true]

lemma opParts_resize (ps : OpParams) :
    opParts { operation := "resize", params := ps } =
      (if 0 < ps.width.getD 0 ∧ 0 < ps.height.getD 0 then
        ["-resize " ++ toString (ps.width.getD 0) ++ "x" ++
          toString (ps.height.getD 0) ++
          (if ps.mode.getD "" = "force" then "!"
           else if ps.mode.getD "" = "fill" then "^" else "")]
      else if truthyInt ps.percent then
        ["-resize " ++ toString (ps.percent.getD 0) ++ "%"]
      else []) := by
  have hn : normalizeOpName "resize" = "resize" := by decide
  simp only [opParts, hn]
  norm_num [ALLOWED_OPERATIONS]
  split_ifs <;> simp [String.append_assoc]

lemma opParts_blur (ps : OpParams) :
    opParts { operation := "blur", params := ps } =
      (if 0 < ps.sigma.getD (ps.radius.getD 0) then
        ["-gaussian-blur 0x" ++ fmt1 (ps.sigma.getD (ps.radius.getD 0) * 3)]
      else []) := by
  have hn : normalizeOpName "blur" = "blur" := by decide
  simp only [opParts, hn]
  simp [ALLOWED_OPERATIONS]

lemma opParts_annotate (ps : OpParams) (txt : String)
    (ht : ps.text = some txt) (hne : txt ≠ "") :
    opParts { operation := "annotate", params := ps } =
      ["-gravity " ++ gravity_map (strToLower (ps.position.getD "southeast")),
       "-pointsize " ++ toString (ps.font_size.getD 24),
       "-fill \x27rgba(0,0,0," ++ fmtFloat (ps.opacity.getD (1 / 2)) ++
         ")\x27",
       "-annotate +" ++
         toString (max 10 (pyTrunc ((ps.font_size.getD 24 : ℚ) * (2 / 5))) +
           max 2 (pyTrunc ((ps.font_size.getD 24 : ℚ) * (5 / 100)))) ++ "+" ++
         toString (max 10 (pyTrunc ((ps.font_size.getD 24 : ℚ) * (2 / 5))) +
           max 2 (pyTrunc ((ps.font_size.getD 24 : ℚ) * (5 / 100)))) ++ " " ++
         shlexQuote (sanitizeAnnotateText txt),
       "-fill \x27rgba(255,255,255," ++ fmtFloat (ps.opacity.getD (1 / 2)) ++
         ")\x27",
       "-annotate +" ++
         toString (max 10 (pyTrunc ((ps.font_size.getD 24 : ℚ) * (2 / 5)))) ++
         "+" ++
         toString (max 10 (pyTrunc ((ps.font_size.getD 24 : ℚ) * (2 / 5)))) ++
         " " ++ shlexQuote (sanitizeAnnotateText txt)] := by
  have hn : normalizeOpName "annotate" = "annotate" := by decide
  simp only [opParts, hn, ht]
  simp [ALLOWED_OPERATIONS, hne]

/-- Claim C2: every raw-command string matching at least one blocked pattern
(matched case-insensitively) makes `validate_command` return not-ok together
with a reason string identifying an offending pattern, and every string
matching none of the patterns returns ok with an empty reason. -/
theorem C2_blocklist_validation (s : String) :
    ((∃ p ∈ BLOCKED_PATTERNS, reSearchCI p s = true) →
      (validate_command s).1 = false ∧
        ∃ p ∈ BLOCKED_PATTERNS, reSearchCI p s = true ∧
          (validate_command s).2 = "Blocked pattern detected: " ++ p) ∧
    ((∀ p ∈ BLOCKED_PATTERNS, reSearchCI p s = false) →
      validate_command s = (true, "")) :=
  ⟨fun h => validate_command_of_match h,
   fun h => validate_command_of_no_match h⟩

/-- Witness for C2: a command with a shell metacharacter is rejected with the
matching pattern named, and a clean resize command is accepted with an empty
reason. -/
theorem C2_blocklist_validation_witness :
    validate_command "convert in.png -resize 50% out.png" = (true, "") ∧
    (validate_command "convert a.png; rm x").1 = false := by
  constructor
  · exact (C2_blocklist_validation "convert in.png -resize 50% out.png").2
      (by decide)
  · exact ((C2_blocklist_validation "convert a.png; rm x").1
      ⟨"[;&|`$]", by decide, by decide⟩).1

/-- Claim C3: the compiled part list is exactly the fixed preamble (engine
name, resource limits, input token with PDF wrapping, unconditional
auto-orient), the per-operation groups, and the output token last; every
part between preamble and output comes from an entry whose normalized name
is in the catalog whitelist, and an entry with any other name contributes no
parts (and raises no error). -/
theorem C3_catalog_whitelist_only (m mem : String) (t : Nat)
    (inp out : String) (ops : List Operation) :
    buildCommandParts m mem t inp out ops =
      [m, "-limit memory " ++ mem, "-limit time " ++ toString t] ++
      (if strEndsWith (strToLower inp) ".pdf" then
        ["-density 150", shlexQuote (inp ++ "[0]"), "-flatten"]
      else [shlexQuote inp]) ++
      ["-auto-orient"] ++ (ops.map opParts).flatten ++ [shlexQuote out] ∧
    (∀ part ∈ (ops.map opParts).flatten,
      ∃ op ∈ ops, normalizeOpName op.operation ∈ ALLOWED_OPERATIONS ∧
        part ∈ opParts op) ∧
    (∀ op ∈ ops, normalizeOpName op.operation ∉ ALLOWED_OPERATIONS →
      opParts op = []) := by
  refine ⟨rfl, ?_, fun op _ h => opParts_nil_of_not_allowed op h⟩
  intro part hpart
  rw [List.mem_flatten] at hpart
  obtain ⟨l, hl, hp⟩ := hpart
  rw [List.mem_map] at hl
  obtain ⟨op, hop, rfl⟩ := hl
  refine ⟨op, hop, ?_, hp⟩
  by_contra hna
  rw [opParts_nil_of_not_allowed op hna] at hp
  exact absurd hp (List.not_mem_nil part)

/-- Witness for C3: an operation with a name outside the catalog contributes
no parts, and a pipeline consisting only of it compiles to the bare preamble
plus output token. -/
theorem C3_catalog_whitelist_only_witness :
    opParts { operation := "delete_all", params := {} } = [] ∧
    buildCommandParts "magick" "2GB" 180 "in.png" "out.png"
        [{ operation := "delete_all", params := {} }] =
      ["magick", "-limit memory 2GB", "-limit time 180", "in.png",
       "-auto-orient", "out.png"] := by
  have h := (C3_catalog_whitelist_only "magick" "2GB" 180 "in.png" "out.png"
    [{ operation := "delete_all", params := {} }]).2.2
    { operation := "delete_all", params := {} } (by simp) (by decide)
  refine ⟨h, ?_⟩
  decide

/-- Claim C6: a raw-command request containing a blocked pattern is rejected
synchronously by the submission path before any stored state changes: no
durable Job row is persisted, no queue enqueue occurs, and the response is
the validation error. -/
theorem C6_raw_rejection_atomic (command job_id : String)
    (images_found : Bool)
    (h : ∃ p ∈ BLOCKED_PATTERNS, reSearchCI p command = true) :
    (process_raw command images_found job_id).persisted_job = false ∧
    (process_raw command images_found job_id).enqueued = false ∧
    (process_raw command images_found job_id).response =
      Except.error ("Invalid command: " ++ (validate_command command).2) := by
  have hv := (validate_command_of_match h).1
  refine ⟨?_, ?_, ?_⟩ <;> simp [process_raw, hv]

/-- Witness for C6: a raw command with a path-traversal sequence creates no
job row and enqueues nothing. -/
theorem C6_raw_rejection_atomic_witness :
    (process_raw "convert ../secret {output}" true "raw_1").persisted_job
        = false ∧
    (process_raw "convert ../secret {output}" true "raw_1").enqueued
        = false := by
  have h := C6_raw_rejection_atomic "convert ../secret {output}" "raw_1" true
    ⟨"\\.\\./", by decide, by decide⟩
  exact ⟨h.1, h.2.1⟩

/-- Claim C8: a resize operation with both width and height positive emits
geometry `WxH` suffixed with an exclamation mark for mode `force`, a caret
for mode `fill`, and no suffix for `fit` or any other mode; when width and
height are not both positive and a (truthy) percent parameter is given, it
emits `PCT%` instead. -/
theorem C8_resize_mode_mapping (ps : OpParams) :
    (∀ w h : Int, ps.width = some w → ps.height = some h → 0 < w → 0 < h →
      opParts { operation := "resize", params := ps } =
        ["-resize " ++ toString w ++ "x" ++ toString h ++
          (if ps.mode.getD "" = "force" then "!"
           else if ps.mode.getD "" = "fill" then "^" else "")]) ∧
    (¬ (0 < ps.width.getD 0 ∧ 0 < ps.height.getD 0) →
      ∀ p : Int, ps.percent = some p → p ≠ 0 →
      opParts { operation := "resize", params := ps } =
        ["-resize " ++ toString p ++ "%"]) := by
  constructor
  · intro w h hw hh hwp hhp
    rw [opParts_resize]
    simp [hw, hh, hwp, hhp]
  · intro hno p hp hpne
    rw [opParts_resize, if_neg hno]
    simp [truthyInt, hp, hpne]

/-- Witness for C8: the three mode mappings of the claim and the
percent-only form, at concrete parameters. -/
theorem C8_resize_mode_mapping_witness :
    opParts { operation := "resize", params := { width := some 800, height := some 600, mode := some "force" } } =
      ["-resize 800x600!"] ∧
    opParts { operation := "resize", params := { width := some 800, height := some 600, mode := some "fill" } } =
      ["-resize 800x600^"] ∧
    opParts { operation := "resize", params := { width := some 800, height := some 600 } } =
      ["-resize 800x600"] ∧
    opParts { operation := "resize", params := { percent := some 50 } } =
      ["-resize 50%"] := by
  refine ⟨?_, ?_, ?_, ?_⟩
  · rw [(C8_resize_mode_mapping _).1 800 600 rfl rfl (by decide) (by decide)]
    decide
  · rw [(C8_resize_mode_mapping _).1 800 600 rfl rfl (by decide) (by decide)]
    decide
  · rw [(C8_resize_mode_mapping _).1 800 600 rfl rfl (by decide) (by decide)]
    decide
  · rw [(C8_resize_mode_mapping _).2 (by decide) 50 rfl (by decide)]
    decide

/-- Claim C9: a blur operation whose caller-provided radius is a positive
`r` (with no explicit sigma) emits exactly one sigma token whose numeric
value is `r` times the fixed multiplier 3, rendered with one decimal place;
a radius of zero or less emits nothing. -/
theorem C9_blur_calibration (ps : OpParams) (r : ℚ) (hs : ps.sigma = none)
    (hr : ps.radius = some r) :
    (0 < r → opParts { operation := "blur", params := ps } =
      ["-gaussian-blur 0x" ++ fmt1 (r * 3)]) ∧
    (r ≤ 0 → opParts { operation := "blur", params := ps } = []) := by
  constructor
  · intro hpos
    rw [opParts_blur]
    simp [hs, hr, hpos]
  · intro hneg
    rw [opParts_blur]
    simp [hs, hr, not_lt.mpr hneg]

/-- Witness for C9: radius 10 compiles to the sigma-30.0 token, and radius 0
emits nothing. -/
theorem C9_blur_calibration_witness :
    opParts { operation := "blur", params := { radius := some 10 } } =
      ["-gaussian-blur 0x30.0"] ∧
    opParts { operation := "blur", params := { radius := some 0 } } = [] := by
  constructor
  · rw [(C9_blur_calibration { radius := some 10 } 10 rfl rfl).1 (by norm_num)]
    have h30 : (10 : ℚ) * 3 = 30 := by norm_num
    rw [h30]
    decide
  · exact (C9_blur_calibration { radius := some 0 } 0 rfl rfl).2 le_rfl

/-- Counterexample to claim C4: the single-job reconciliation read does
change a terminal job's status — a durable job already `cancelled` whose
backend record reports `started` is moved back to `processing`, which is
not `cancelled`. -/
theorem C4_counterexample :
    (getJobSync 1000 (some { status := "started" })
        { status := JobStatus.cancelled }).status = JobStatus.processing ∧
    JobStatus.processing ≠ JobStatus.cancelled := by
  decide

/-- Claim C4 as amended: the job-list reconciliation read never mutates a
job whose durable status is terminal (it only syncs `pending`/`processing`
jobs), but the single-job reconciliation read applies the backend status
unconditionally and can move a terminal job's status backward — a
`cancelled` job whose backend record reports `started` becomes
`processing`. -/
theorem C4_amended_monotonicity :
    (∀ (now : Int) (rq : Option RQStatus) (job : JobRecord),
        (job.status = JobStatus.completed ∨ job.status = JobStatus.failed ∨
          job.status = JobStatus.cancelled) →
        listJobsSyncOne now rq job = job) ∧
    (∀ (now : Int) (r : RQStatus) (job : JobRecord),
        job.status = JobStatus.cancelled → r.status = "started" →
        (getJobSync now (some r) job).status = JobStatus.processing) := by
  constructor
  · intro now rq job h
    have hn : ¬ (job.status = JobStatus.pending ∨
        job.status = JobStatus.processing) := by
      rcases h with h | h | h <;> rw [h] <;> decide
    unfold listJobsSyncOne
    rw [if_neg hn]
  · intro now r job hjob hr
    obtain ⟨rs, rres, rmeta, rexc⟩ := r
    simp only at hr
    subst hr
    cases rmeta <;> simp [getJobSync]

/-- Witness for C4 as amended: the list sync leaves a completed job
untouched even when the backend reports `started`, while the single-job
sync moves a concrete cancelled job back to `processing`. -/
theorem C4_amended_monotonicity_witness :
    listJobsSyncOne 1000 (some { status := "started" })
        { status := JobStatus.completed } =
      { status := JobStatus.completed } ∧
    (getJobSync 1000 (some { status := "started" })
        { status := JobStatus.cancelled }).status = JobStatus.processing := by
  constructor
  · exact C4_amended_monotonicity.1 1000 (some { status := "started" })
      { status := JobStatus.completed } (Or.inl rfl)
  · exact C4_amended_monotonicity.2 1000 { status := "started" }
      { status := JobStatus.cancelled } rfl rfl

/-- Claim C5: a `pending`/`processing` job whose backend record is absent
and whose age since `created_at` exceeds the 300-second grace period is
forced by the job-list reconciliation to `failed`, with a completion
timestamp and the fixed expiry/loss message (a message distinct from the
engine-failure path, which reports the backend `exc_info`). -/
theorem C5_expiry_forced_failure (now c : Int) (job : JobRecord)
    (hst : job.status = JobStatus.pending ∨
      job.status = JobStatus.processing)
    (hc : job.created_at = some c) (hage : now - c > 300) :
    listJobsSyncOne now none job =
      { job with
        status := JobStatus.failed
        error_message := some "Job expired or was lost. Please try again."
        completed_at := some now } := by
  unfold listJobsSyncOne
  rw [if_pos hst, hc]
  simp [hage]

/-- Witness for C5: a pending job created at time 0 with no backend record,
read at time 400, is forced to `failed` with the expiry message. -/
theorem C5_expiry_forced_failure_witness :
    listJobsSyncOne 400 none
        { status := JobStatus.pending, created_at := some 0 } =
      { status := JobStatus.failed
        error_message := some "Job expired or was lost. Please try again."
        created_at := some 0
        completed_at := some 400 } := by
  exact C5_expiry_forced_failure 400 0
    { status := JobStatus.pending, created_at := some 0 }
    (Or.inl rfl) rfl (by decide)

/-- Claim C10: when the queue backend has no record for a job, the
single-job reconciliation read returns the durable record entirely
unchanged, whatever its age — no field is mutated on that path; the
300-second expiry transition exists only in the job-list reconciliation
(shown here on a concrete expired pending job). -/
theorem C10_absent_backend_frame :
    (∀ (now : Int) (job : JobRecord), getJobSync now none job = job) ∧
    (listJobsSyncOne 301 none
        { status := JobStatus.pending, created_at := some 0 }).status =
      JobStatus.failed := by
  exact ⟨fun now job => rfl, by decide⟩

/-- Claim C7: the batch worker attempts every input independently: the
success list collects exactly the inputs whose execution succeeded (in
order), the output list collects exactly their output paths, the failed
list collects exactly one `(file, error)` entry for each other input, and
the success and failed counts always sum to the number of inputs — so no
input's failure prevents a later input from being attempted or recorded. -/
theorem C7_batch_partial_failure (items : List (String × ItemOutcome)) :
    (process_images items).success =
      (items.filter fun it => isOkOutcome it.2).map Prod.fst ∧
    (process_images items).output_files =
      items.filterMap (fun it =>
        match it.2 with
        | ItemOutcome.execOk out => some out
        | _ => none) ∧
    (process_images items).failed =
      (items.filter fun it => !(isOkOutcome it.2)).map
        (fun it => (it.1, failMessage it.2)) ∧
    (process_images items).success.length +
      (process_images items).failed.length = items.length := by
  have main : (process_images items).success =
      (items.filter fun it => isOkOutcome it.2).map Prod.fst ∧
      (process_images items).output_files =
        items.filterMap (fun it =>
          match it.2 with
          | ItemOutcome.execOk out => some out
          | _ => none) ∧
      (process_images items).failed =
        (items.filter fun it => !(isOkOutcome it.2)).map
          (fun it => (it.1, failMessage it.2)) := by
    induction items with
    | nil => simp [process_images]
    | cons hd tl ih =>
        obtain ⟨inp, outc⟩ := hd
        obtain ⟨ih1, ih2, ih3⟩ := ih
        cases outc <;>
          simp [process_images, isOkOutcome, failMessage, ih1, ih2, ih3]
  obtain ⟨h1, h2, h3⟩ := main
  refine ⟨h1, h2, h3, ?_⟩
  rw [h1, h3, List.length_map, List.length_map]
  exact (@List.length_eq_length_filter_add _ items
    (fun it => isOkOutcome it.2)).symm

/-- Counterexample to claim C1: the execution sandbox does not execute the
compiled command as a pre-tokenized argument vector — `_run_command_sync`
passes every compiled command to the shell as a single string
(`subprocess.run(..., shell=True)`), so no argument vector exists even for a
concrete compiled command. -/
theorem C1_counterexample :
    ¬ ∃ argv : List String,
      run_command_sync
          (build_command "magick" "2GB" 180 "in.png" "out.png" []) =
        ExecInvocation.argVector argv := by
  rintro ⟨argv, h⟩
  simp [run_command_sync] at h

/-- Claim C1 as amended: the user-controlled tokens are shlex-quoted before
insertion — the compiled part list ends with the quoted output path and
contains the quoted input path (with the PDF page selector when the input is
a PDF), the annotate/watermark text enters the two annotation parts only as
`shlex.quote` of the sanitized text, and the raw-command path substitutes
each placeholder with an individually quoted path (shown on a concrete raw
command whose input path needs quoting) — but the execution sandbox then
hands every compiled command to the shell as a single string (`shell=True`),
not as an argument vector, so safety rests on the quoting rather than on
pre-tokenization. -/
theorem C1_amended_quoting :
    (∀ (m mem : String) (t : Nat) (inp out : String) (ops : List Operation),
      ∃ front, buildCommandParts m mem t inp out ops =
        front ++ [shlexQuote out]) ∧
    (∀ (m mem : String) (t : Nat) (inp out : String) (ops : List Operation),
      (strEndsWith (strToLower inp) ".pdf" = true →
        shlexQuote (inp ++ "[0]") ∈ buildCommandParts m mem t inp out ops) ∧
      (strEndsWith (strToLower inp) ".pdf" = false →
        shlexQuote inp ∈ buildCommandParts m mem t inp out ops)) ∧
    (∀ (ps : OpParams) (txt : String), ps.text = some txt → txt ≠ "" →
      ∃ (gpart szpart fill1 fill2 : String) (o1 o2 : ℤ),
        opParts { operation := "annotate", params := ps } =
          [gpart, szpart, fill1,
           "-annotate +" ++ toString o1 ++ "+" ++ toString o1 ++ " " ++
             shlexQuote (sanitizeAnnotateText txt),
           fill2,
           "-annotate +" ++ toString o2 ++ "+" ++ toString o2 ++ " " ++
             shlexQuote (sanitizeAnnotateText txt)]) ∧
    (build_raw_command "magick" "2GB" 180 "/tmp/a b.png" "/tmp/out.png"
        "convert {input} -negate {output}" =
      ("convert -limit memory 2GB -limit time 180 \x27/tmp/a b.png\x27 -negate /tmp/out.png",
       "")) ∧
    (∀ c, run_command_sync c = ExecInvocation.shellString c) := by
  refine ⟨?_, ?_, ?_, by decide, fun c => rfl⟩
  · intro m mem t inp out ops
    refine ⟨[m, "-limit memory " ++ mem, "-limit time " ++ toString t] ++
      (if strEndsWith (strToLower inp) ".pdf" then
        ["-density 150", shlexQuote (inp ++ "[0]"), "-flatten"]
      else [shlexQuote inp]) ++
      ["-auto-orient"] ++ (ops.map opParts).flatten, ?_⟩
    simp [buildCommandParts, List.append_assoc]
  · intro m mem t inp out ops
    constructor <;> intro h <;> simp [buildCommandParts, h]
  · intro ps txt ht hne
    exact ⟨_, _, _, _, _, _, opParts_annotate ps txt ht hne⟩

/-- Witness for C1 as amended: at a concrete input path containing a space,
the compiled part list ends with the quoted output and contains the quoted
input, and a concrete watermark text reaches the annotation parts only in
quoted sanitized form. -/
theorem C1_amended_quoting_witness :
    (∃ front,
      buildCommandParts "magick" "2GB" 180 "in 1.png" "out.png" [] =
        front ++ [shlexQuote "out.png"]) ∧
    shlexQuote "in 1.png" ∈
      buildCommandParts "magick" "2GB" 180 "in 1.png" "out.png" [] ∧
    (∃ (gpart szpart fill1 fill2 : String) (o1 o2 : ℤ),
      opParts { operation := "annotate", params := { text := some "wm" } } =
        [gpart, szpart, fill1,
         "-annotate +" ++ toString o1 ++ "+" ++ toString o1 ++ " " ++
           shlexQuote (sanitizeAnnotateText "wm"),
         fill2,
         "-annotate +" ++ toString o2 ++ "+" ++ toString o2 ++ " " ++
           shlexQuote (sanitizeAnnotateText "wm")]) := by
  refine ⟨C1_amended_quoting.1 "magick" "2GB" 180 "in 1.png" "out.png" [],
    ?_, ?_⟩
  · exact (C1_amended_quoting.2.1 "magick" "2GB" 180 "in 1.png" "out.png"
      []).2 (by decide)
  · exact C1_amended_quoting.2.2.1 { text := some "wm" } "wm" rfl (by decide)

end ImageMagickWebUI
